import Mathlib

/-!
Verification of the port/namespace schema of `plumpy` (file `plumpy/ports.py`)
against its natural-language specification.

The Python module is shallowly embedded: Python values supplied to `validate`
are modelled by the inductive type `PyValue`; the class hierarchy
`ValueSpec` → `Port` → `InputPort`/`OutputPort`/`PortNamespace` is modelled by
the structure `ValueSpec` and the inductive tree `Port`; Python dictionaries
are association lists with unique keys, mutated by explicit state passing;
raised exceptions are `Except.error` / explicit error components.

The sentinel `UNSPECIFIED` is the Python empty tuple `()` (ports.py line 14).
CPython interns the empty tuple, so an identity test `value is UNSPECIFIED`
holds exactly when `value` is the empty tuple; `isUNSPECIFIED` models this.
-/

set_option autoImplicit false

/-- Model of the Python values that callers pass to the port machinery
(plain data: numbers, strings, booleans, None, tuples, dictionaries).
Dictionary keys are port names, hence strings. -/
inductive PyValue where
  | none
  | int (n : Int)
  | str (s : String)
  | bool (b : Bool)
  | tuple (xs : List PyValue)
  | dict (entries : List (String × PyValue))

/-- Association-list model of a Python `dict` (unique keys, insertion order). -/
abbrev Dict := List (String × PyValue)

/-- The sentinel: `UNSPECIFIED = ()` (ports.py line 14). -/
def UNSPECIFIED : PyValue := PyValue.tuple []

/-- Model of the identity test `value is UNSPECIFIED`.  Since `UNSPECIFIED`
is the interned empty tuple, the test holds exactly for the empty tuple. -/
def isUNSPECIFIED : PyValue → Bool
  | PyValue.tuple [] => true
  | _ => false

/-- Model of the Python classes usable as a `valid_type` constraint. -/
inductive PyType where
  | pyInt
  | pyStr
  | pyBool
  | pyTuple
  | pyDict
  | pyNoneType

/-- Model of `isinstance(value, t)` for a single class.  A Python `bool` is a
subclass of `int`, so booleans are instances of `pyInt` as well. -/
def isinstance1 : PyValue → PyType → Bool
  | PyValue.int _, PyType.pyInt => true
  | PyValue.bool _, PyType.pyInt => true
  | PyValue.bool _, PyType.pyBool => true
  | PyValue.str _, PyType.pyStr => true
  | PyValue.tuple _, PyType.pyTuple => true
  | PyValue.dict _, PyType.pyDict => true
  | PyValue.none, PyType.pyNoneType => true
  | _, _ => false

/-- Model of `isinstance(value, valid_type)` where `valid_type` is a class or
a tuple of classes. -/
def isinstanceL (v : PyValue) (ts : List PyType) : Bool :=
  ts.any (isinstance1 v)

/-- Model of the values a leaf validator callable can return: a two-element
sequence `(bool, message)` (the source asserts the length is exactly two),
a plain boolean, or `None` / any other non-sequence truthy object (modelled
as `vnone`, which `ValueSpec.validate` treats as success). -/
inductive VResult where
  | seq2 (ok : Bool) (msg : Option String)
  | vbool (b : Bool)
  | vnone

/-- Model of `ValueSpec.__init__` state: `_name`, `_valid_type`, `_help`,
`_required`, `_validator` (ports.py lines 25-30). -/
structure ValueSpec where
  name : String
  valid_type : Option (List PyType)
  help : Option String
  required : Bool
  validator : Option (PyValue → VResult)

/-- Model of ports.py lines 100-108: run the custom validator if present;
a two-element sequence is propagated verbatim, boolean `False` becomes a
generic failure, anything else (including `None` and `True`) is success. -/
def ValueSpec.runValidator (spec : ValueSpec) (value : PyValue) : Bool × Option String :=
  match spec.validator with
  | some f =>
    match f value with
    | VResult.seq2 ok msg => (ok, msg)
    | VResult.vbool false => (false, some "Value failed validation")
    | VResult.vbool true => (true, Option.none)
    | VResult.vnone => (true, Option.none)
  | Option.none => (true, Option.none)

/-- Model of `ValueSpec.validate` (ports.py lines 89-108): the sentinel branch,
the type-check branch, then the (unconditional) custom-validator block. -/
def ValueSpec.validate (spec : ValueSpec) (value : PyValue) : Bool × Option String :=
  if isUNSPECIFIED value then
    if spec.required then
      (false, some ("required value was not provided for " ++ spec.name))
    else
      ValueSpec.runValidator spec value
  else
    match spec.valid_type with
    | some ts =>
      if isinstanceL value ts = false then
        (false, some ("value " ++ spec.name ++ " is not of the right type"))
      else
        ValueSpec.runValidator spec value
    | Option.none => ValueSpec.runValidator spec value

/-- Model of `InputPort.required_override` (ports.py lines 120-130). -/
def InputPort.required_override (required : Bool) (default : PyValue) : Bool :=
  if isUNSPECIFIED default then required else false

/-- Attributes of a `PortNamespace` instance: the `ValueSpec` attributes
(`_name`, `_help`, `_required`, `_validator`, `_valid_type`) together with
`_default` and `_dynamic` (ports.py lines 192-204).  A namespace validator is
called as `validator(self, port_values)`; since it receives the namespace
itself, it is referenced here by a key into an external environment (`Env`)
to keep the tree a plain inductive type. -/
structure NSAttrs where
  name : String
  help : Option String
  required : Bool
  validator : Option String
  valid_type : Option (List PyType)
  default : PyValue
  dynamic : Bool

/-- The port tree: `InputPort` (ValueSpec state plus `_default`),
`OutputPort` (ValueSpec state), and `PortNamespace` (attributes plus the
`_ports` dictionary of children).  `ValueSpec` itself is abstract (ABCMeta)
and never instantiated directly. -/
inductive Port where
  | input (spec : ValueSpec) (default : PyValue)
  | output (spec : ValueSpec)
  | nspace (attrs : NSAttrs) (ports : List (String × Port))

/-- Reads the `required` property of any port. -/
def Port.requiredVal : Port → Bool
  | Port.input spec _ => spec.required
  | Port.output spec => spec.required
  | Port.nspace attrs _ => attrs.required

/-- Reads the `dynamic` property of a namespace (leaf ports have none). -/
def Port.dynamicVal : Port → Bool
  | Port.nspace attrs _ => attrs.dynamic
  | _ => false

/-- Reads the `valid_type` property of any port. -/
def Port.validTypeVal : Port → Option (List PyType)
  | Port.input spec _ => spec.valid_type
  | Port.output spec => spec.valid_type
  | Port.nspace attrs _ => attrs.valid_type

/-- Reads the `_ports` dictionary of a namespace (leaf ports have none). -/
def Port.portsList : Port → List (String × Port)
  | Port.nspace _ ports => ports
  | _ => []

/-- Model of `isinstance(p, PortNamespace)`. -/
def Port.isNamespace : Port → Bool
  | Port.nspace _ _ => true
  | _ => false

/-- Model of `InputPort.__init__` (ports.py lines 132-149): the effective
`required` flag is `required_override(required, default)`; a disagreement with
the caller's `required` is only logged (no effect here); a supplied default is
eagerly validated and an invalid default raises `ValueError`. -/
def InputPort.init (name : String) (valid_type : Option (List PyType))
    (help : Option String) (default : PyValue) (required : Bool)
    (validator : Option (PyValue → VResult)) : Except String Port :=
  let spec : ValueSpec :=
    { name := name, valid_type := valid_type, help := help,
      required := InputPort.required_override required default,
      validator := validator }
  if isUNSPECIFIED default then
    Except.ok (Port.input spec default)
  else
    match ValueSpec.validate spec default with
    | (true, _) => Except.ok (Port.input spec default)
    | (false, msg) => Except.error ("Invalid default value: " ++ msg.getD "")

/-- Model of `OutputPort.__init__` (ports.py lines 180-182): the super call
omits `required` (so the ValueSpec default `True` is used) and `_required` is
then overwritten with the caller's value. -/
def OutputPort.init (name : String) (valid_type : Option (List PyType))
    (required : Bool) (help : Option String) : Port :=
  Port.output
    { name := name, valid_type := valid_type, help := help,
      required := required, validator := Option.none }

/-- Constructor keyword arguments of `PortNamespace.__init__`
(ports.py lines 192-199), with the Python default values. -/
structure NSArgs where
  help : Option String := Option.none
  required : Bool := true
  validator : Option String := Option.none
  valid_type : Option (List PyType) := Option.none
  default : PyValue := UNSPECIFIED
  dynamic : Bool := false

/-- Model of `PortNamespace.__init__` (ports.py lines 192-204).  Note that the
constructor stores `_valid_type` directly through `ValueSpec.__init__`, so the
`valid_type` property setter does not run and `dynamic` stays as passed. -/
def PortNamespace.init (name : String) (args : NSArgs) : Port :=
  Port.nspace
    { name := name, help := args.help, required := args.required,
      validator := args.validator, valid_type := args.valid_type,
      default := args.default, dynamic := args.dynamic } []

/-- First value bound to a key in a Python dict (keys are unique). -/
def dictLookup {α : Type} : List (String × α) → String → Option α
  | [], _ => Option.none
  | (k, v) :: rest, key => if k = key then some v else dictLookup rest key

/-- Model of `d[key] = v`: replace the value in place if the key exists
(keeping its position, as Python dicts do), otherwise append. -/
def dictSet {α : Type} : List (String × α) → String → α → List (String × α)
  | [], key, v => [(key, v)]
  | (k, w) :: rest, key, v =>
    if k = key then (k, v) :: rest else (k, w) :: dictSet rest key v

/-- Model of `d.pop(key, dflt)`: the value (or the default) together with the
dictionary with the key removed. -/
def dictPop {α : Type} : List (String × α) → String → α → α × List (String × α)
  | [], _, dflt => (dflt, [])
  | (k, v) :: rest, key, dflt =>
    if k = key then (v, rest)
    else
      let r := dictPop rest key dflt
      (r.1, (k, v) :: r.2)

theorem dictLookup_dictSet_self {α : Type} (l : List (String × α)) (k : String) (v : α) :
    dictLookup (dictSet l k v) k = some v := by
  induction l with
  | nil => simp [dictSet, dictLookup]
  | cons hd tl ih =>
    by_cases h : hd.1 = k <;> simp [dictSet, dictLookup, h, ih]

theorem dictSet_dictSet {α : Type} (l : List (String × α)) (k : String) (v w : α) :
    dictSet (dictSet l k v) k w = dictSet l k w := by
  induction l with
  | nil => simp [dictSet]
  | cons hd tl ih =>
    by_cases h : hd.1 = k <;> simp [dictSet, h, ih]

/-- Character-level model of Python `name.split('.')`: splitting on every
occurrence of the separator, keeping empty pieces, with `[] ↦ [[]]`
(as `''.split('.') == ['']`). -/
def splitDotChars : List Char → List (List Char)
  | [] => [[]]
  | c :: rest =>
    if c = '.' then [] :: splitDotChars rest
    else
      match splitDotChars rest with
      | [] => [[c]]
      | g :: gs => (c :: g) :: gs

/-- Model of `name.split(PortNamespace.NAMESPACE_SEPARATOR)`. -/
def splitDot (s : String) : List String :=
  (splitDotChars s.data).map (fun l => String.mk l)

/-- Model of `PortNamespace.NAMESPACE_SEPARATOR.join(pieces)`. -/
def joinDots : List String → String
  | [] => ""
  | [s] => s
  | s :: rest => s ++ "." ++ joinDots rest

theorem splitDotChars_ne_nil (l : List Char) : splitDotChars l ≠ [] := by
  induction l with
  | nil => simp [splitDotChars]
  | cons c rest ih =>
    simp only [splitDotChars]
    by_cases h : c = '.'
    · simp [h]
    · simp only [h, if_false]
      match hm : splitDotChars rest with
      | [] => simp
      | g :: gs => simp

theorem splitDotChars_no_dot (l : List Char) (h : ('.' : Char) ∉ l) :
    splitDotChars l = [l] := by
  induction l with
  | nil => simp [splitDotChars]
  | cons c rest ih =>
    simp only [List.mem_cons, not_or] at h
    have hc : ¬ c = '.' := fun hcc => h.1 hcc.symm
    simp only [splitDotChars, hc, if_false, ih h.2]

theorem splitDotChars_append (a r : List Char) (h : ('.' : Char) ∉ a) :
    splitDotChars (a ++ '.' :: r) = a :: splitDotChars r := by
  induction a with
  | nil => simp [splitDotChars]
  | cons c rest ih =>
    simp only [List.mem_cons, not_or] at h
    have hc : ¬ c = '.' := fun hcc => h.1 hcc.symm
    have ih2 := ih h.2
    simp only [List.cons_append, splitDotChars, hc, if_false, List.append_eq] at *
    rw [ih2]

theorem splitDot_joinDots (names : List String) (hne : names ≠ [])
    (hn : ∀ n ∈ names, n.data ≠ [] ∧ ('.' : Char) ∉ n.data) :
    splitDot (joinDots names) = names := by
  induction names with
  | nil => exact absurd rfl hne
  | cons n rest ih =>
    match rest with
    | [] =>
      have hn1 := hn n (by simp)
      simp [joinDots, splitDot, splitDotChars_no_dot n.data hn1.2]
    | m :: rest2 =>
      have hn1 := hn n (by simp)
      have hjoin : (n ++ "." ++ joinDots (m :: rest2)).data
          = n.data ++ '.' :: (joinDots (m :: rest2)).data := by
        simp [String.data_append]
      have ihr := ih (by simp) (fun x hx => hn x (List.mem_cons_of_mem n hx))
      have hmk : String.mk n.data = n := rfl
      simp only [joinDots]
      simp only [splitDot, hjoin, splitDotChars_append n.data _ hn1.2, List.map_cons, hmk]
      refine List.cons_eq_cons.mpr ⟨rfl, ?_⟩
      simpa [splitDot] using ihr

/-- Model of the recursion of `PortNamespace.get_port` (ports.py lines 290-314)
at the level of the split segment list.  The entry `Port.get_port` splits the
name; the recursive call `self[port_name].get_port('.'.join(namespace))`
re-splits the joined remainder, which yields exactly the remainder again, so
the recursion is over the segment list.  A level whose segment list is `[""]`
corresponds to a recursive call with the empty string, which the source
rejects at entry; a non-namespace receiver has no `get_port` attribute, which
raises `AttributeError`. -/
def Port.get_port_go : Port → List String → Except String Port
  | Port.nspace attrs ports, names =>
    if names = [""] then Except.error "name cannot be an empty string"
    else
      match names with
      | [] => Except.error "name cannot be an empty string"
      | port_name :: rest =>
        match dictLookup ports port_name with
        | Option.none =>
          Except.error ("port " ++ port_name ++ " does not exist in port namespace " ++ attrs.name)
        | some child =>
          if rest.isEmpty then Except.ok child
          else Port.get_port_go child rest
  | _, _ => Except.error "AttributeError: object has no attribute get_port"
termination_by _p names => names.length
decreasing_by
  simp_wf

/-- Model of `PortNamespace.get_port` (ports.py lines 290-314): the receiver
must be a namespace (a leaf has no such attribute), the name must be a string
(`ValueError` otherwise) and non-empty (`ValueError` otherwise); then the
name is split on the separator and resolved level by level. -/
def Port.get_port (p : Port) (name : PyValue) : Except String Port :=
  match p with
  | Port.nspace _ _ =>
    match name with
    | PyValue.str s =>
      if s = "" then Except.error "name cannot be an empty string"
      else Port.get_port_go p (splitDot s)
    | _ => Except.error "name has to be a string type"
  | _ => Except.error "AttributeError: object has no attribute get_port"

/-- Model of the recursion of `PortNamespace.create_port_namespace`
(ports.py lines 316-353) over the split segment list, with the updated tree
passed explicitly (Python mutates `self` in place; a created child persists
even when a later level raises).  The result pair is (tree after the call,
returned namespace or raised error). -/
def Port.create_pn : Port → List String → NSArgs → Port × Except String Port
  | Port.nspace attrs ports, names, args =>
    if names = [""] then
      (Port.nspace attrs ports, Except.error "name cannot be an empty string")
    else
      match names with
      | [] =>
        (Port.nspace attrs ports, Except.error "name cannot be an empty string")
      | port_name :: rest =>
        match dictLookup ports port_name with
        | some child =>
          if child.isNamespace = false then
            (Port.nspace attrs ports,
             Except.error ("the name " ++ port_name ++ " in " ++ attrs.name ++ " already contains a Port"))
          else if rest.isEmpty then
            (Port.nspace attrs ports, Except.ok child)
          else
            let r := Port.create_pn child rest args
            (Port.nspace attrs (dictSet ports port_name r.1), r.2)
        | Option.none =>
          if rest.isEmpty then
            let child := PortNamespace.init port_name args
            (Port.nspace attrs (dictSet ports port_name child), Except.ok child)
          else
            let child := PortNamespace.init port_name {}
            let r := Port.create_pn child rest args
            (Port.nspace attrs (dictSet ports port_name r.1), r.2)
  | p, _, _ => (p, Except.error "AttributeError: object has no attribute create_port_namespace")
termination_by _p names _args => names.length
decreasing_by
  all_goals simp_wf

/-- Model of `PortNamespace.create_port_namespace` (ports.py lines 316-353):
receiver must be a namespace, the name a non-empty string; then the split
segment list is walked, creating missing namespaces (bare ones for the
non-terminal segments, one built from `args` for the terminal segment) and
failing where a segment is occupied by a non-namespace port. -/
def Port.create_port_namespace (p : Port) (name : PyValue) (args : NSArgs) :
    Port × Except String Port :=
  match p with
  | Port.nspace _ _ =>
    match name with
    | PyValue.str s =>
      if s = "" then (p, Except.error "name cannot be an empty string")
      else Port.create_pn p (splitDot s) args
    | _ => (p, Except.error "name has to be a string type")
  | _ => (p, Except.error "AttributeError: object has no attribute create_port_namespace")

/-- Single-level child lookup (`self[name]` restricted to namespaces). -/
def Port.lookupChild (p : Port) (n : String) : Option Port :=
  match p with
  | Port.nspace _ ports => dictLookup ports n
  | _ => Option.none

/-- Sequential single-level resolution of a segment list, used to state which
node (if any) pre-exists at a path. -/
def Port.findPath (p : Port) : List String → Option Port
  | [] => some p
  | n :: rest =>
    match p.lookupChild n with
    | some c => Port.findPath c rest
    | Option.none => Option.none

/-- Decides whether a call raised. -/
def isError {ε α : Type} : Except ε α → Bool
  | Except.error _ => true
  | Except.ok _ => false

/-- Model of the `namespace_options` dictionary passed to `absorb`: for each
mutable `PortNamespace` property an optional override (present key), plus the
keys that name no mutable property (`extra`), which survive the pops of the
property loop and make `absorb` raise afterwards. -/
structure NSOptions where
  default : Option PyValue := Option.none
  dynamic : Option Bool := Option.none
  help : Option (Option String) := Option.none
  required : Option Bool := Option.none
  valid_type : Option (Option (List PyType)) := Option.none
  validator : Option (Option String) := Option.none
  extra : List String := []

/-- Model of the `PortNamespace.valid_type` property setter (ports.py lines
253-266): a non-None `valid_type` sets `dynamic` to `True`, a None one sets it
to `False`; then `_valid_type` is stored. -/
def NSAttrs.set_valid_type (a : NSAttrs) (vt : Option (List PyType)) : NSAttrs :=
  { a with dynamic := vt.isSome, valid_type := vt }

/-- Modelled from the spec: `is_mutable_property` is imported from
`plumpy.utils`, which is not part of the sources; per the spec the mutable
schema properties of `PortNamespace` are exactly `default`, `dynamic`,
`help`, `required`, `valid_type` and `validator` (not `name`), and
ports.py line 374 iterates `dir(port_namespace)`, which is sorted, so the
properties are applied in this alphabetical order, each through its setter
(the `valid_type` setter rewrites `dynamic`). -/
def absorb_apply_options (attrs oattrs : NSAttrs) (opts : NSOptions) : NSAttrs :=
  let a1 := { attrs with default := opts.default.getD oattrs.default }
  let a2 := { a1 with dynamic := opts.dynamic.getD oattrs.dynamic }
  let a3 := { a2 with help := opts.help.getD oattrs.help }
  let a4 := { a3 with required := opts.required.getD oattrs.required }
  let a5 := NSAttrs.set_valid_type a4 (opts.valid_type.getD oattrs.valid_type)
  { a5 with validator := opts.validator.getD oattrs.validator }

/-- Model of `PortNamespace._filter_ports` (ports.py lines 493-516); the
mutual-exclusion check sits at the top of the generator body, so it fires on
the first iteration of the consuming loop, before any port is yielded. -/
def filter_ports (items : List (String × Port)) (exclude : List String)
    (incl : Option (List String)) : Except String (List (String × Port)) :=
  if exclude ≠ [] ∧ incl.isSome then
    Except.error "exclude and include are mutually exclusive"
  else
    Except.ok (items.filter (fun kv =>
      match incl with
      | some l => l.contains kv.1
      | Option.none => !(exclude.contains kv.1)))

/-- Model of `PortNamespace.absorb` (ports.py lines 355-391).  Steps, in
source order: the `isinstance` check on the absorbed namespace; the mutable
property loop (`absorb_apply_options`); the unsupported-options check; the
filtered deep copy of the absorbed ports.  The result pair is (self after the
call, returned list of absorbed names or raised error). -/
def Port.absorb (self other : Port) (exclude : List String)
    (incl : Option (List String)) (opts : NSOptions) :
    Port × Except String (List String) :=
  match self, other with
  | Port.nspace attrs ports, Port.nspace oattrs oports =>
    let a := absorb_apply_options attrs oattrs opts
    if opts.extra ≠ [] then
      (Port.nspace a ports,
       Except.error "the namespace_options are not a supported PortNamespace property")
    else
      match filter_ports oports exclude incl with
      | Except.error m => (Port.nspace a ports, Except.error m)
      | Except.ok kept =>
        (Port.nspace a (kept.foldl (fun ps kv => dictSet ps kv.1 kv.2) ports),
         Except.ok (kept.map Prod.fst))
  | Port.nspace attrs ports, _ =>
    (Port.nspace attrs ports,
     Except.error "port_namespace has to be an instance of PortNamespace")
  | p, _ => (p, Except.error "AttributeError: object has no attribute absorb")

/-- Model of `PortNamespace.project` (ports.py lines 393-411): keep the keys
declared among this namespace's ports, in the iteration order of the value
dictionary.  The source recurses only under `isinstance(value, PortNamespace)`;
a caller-supplied value is plain data (`PyValue`), never a `PortNamespace`
instance, so that branch never fires and the value is kept verbatim. -/
def Port.project (p : Port) (port_values : Dict) : Dict :=
  match p with
  | Port.nspace _ ports =>
    port_values.filter (fun kv => (dictLookup ports kv.1).isSome)
  | _ => []

/-- Modelled from the spec (design note on `project` and the method's own
docstring): the intended contract recurses via the child namespace's
`project` when the key's schema child is a `PortNamespace` and the value is a
nested mapping.  Defined for comparison with `Port.project` above. -/
def projectSpecGo : Port → List (String × PyValue) → List (String × PyValue)
  | _, [] => []
  | p, (n, v) :: rest =>
    let tail := projectSpecGo p rest
    match Port.lookupChild p n with
    | some child =>
      match child, v with
      | Port.nspace cattrs cports, PyValue.dict d =>
        (n, PyValue.dict (projectSpecGo (Port.nspace cattrs cports) d)) :: tail
      | _, _ => (n, v) :: tail
    | Option.none => tail
termination_by _p values => sizeOf values
decreasing_by
  all_goals simp_wf
  all_goals omega

/-- Spec-intended `project` (see `projectSpecGo`). -/
def Port.projectSpec (p : Port) (port_values : Dict) : Dict :=
  match p with
  | Port.nspace attrs ports => projectSpecGo (Port.nspace attrs ports) port_values
  | _ => []

/-- Environment binding namespace-validator names to their callables.  The
callable receives the namespace itself and the (copied) value dictionary and
returns a `(bool, message)` pair, as `self._validator(self, port_values)` at
ports.py line 430 expects. -/
structure Env where
  nsValidator : String → Port → Dict → Bool × Option String

/-- Model of building a `dict` from the elements of a Python tuple of
key/value pairs (`dict(())` is the empty dict; anything else raises
`TypeError` unless every element is a pair). -/
def pyPairsToDict : List PyValue → Except String Dict
  | [] => Except.ok []
  | PyValue.tuple [PyValue.str k, v] :: rest =>
    match pyPairsToDict rest with
    | Except.ok d => Except.ok ((k, v) :: d)
    | Except.error e => Except.error e
  | _ :: _ => Except.error "TypeError: cannot convert to a dictionary"

/-- Model of ports.py lines 423-426: `None` becomes `{}`; any other argument
goes through `dict(port_values)`, which shallow-copies a mapping, accepts an
iterable of pairs (in particular `dict(UNSPECIFIED) == {}`), and raises
`TypeError` otherwise. -/
def pyArgToDict : PyValue → Except String Dict
  | PyValue.none => Except.ok []
  | PyValue.dict entries => Except.ok entries
  | PyValue.tuple xs => pyPairsToDict xs
  | _ => Except.error "TypeError: object is not iterable"

/-- Model of `PortNamespace.validate_dynamic_ports` (ports.py lines 469-491):
leftover values on a non-dynamic namespace fail; with a `valid_type`, the
first leftover value failing the instance check fails. -/
def validate_dynamic_ports (dynamic : Bool) (valid_type : Option (List PyType))
    (port_values : Dict) : Bool × Option String :=
  if port_values.isEmpty = false ∧ dynamic = false then
    (false, some "Unexpected ports, for a non dynamic namespace")
  else
    match valid_type with
    | some ts =>
      match port_values.find? (fun kv => !(isinstanceL kv.2 ts)) with
      | some _ => (false, some "Invalid type for dynamic port value")
      | Option.none => (true, Option.none)
    | Option.none => (true, Option.none)

mutual

/-- Model of the method `validate` shared by all ports, applied to the raw
Python argument.  For leaf ports this is `ValueSpec.validate`.  For a
`PortNamespace` (ports.py lines 413-449) the argument is normalised into a
private working dictionary (`pyArgToDict`, modelling `dict(port_values)` with
`None` as `{}`), the three phases run on that copy, and the caller's argument
is handed back untouched as the second component (the state of the caller's
object after the call). -/
def Port.validate (env : Env) (p : Port) (arg : PyValue) :
    Except String ((Bool × Option String) × PyValue) :=
  match p with
  | Port.input spec _ => Except.ok (ValueSpec.validate spec arg, arg)
  | Port.output spec => Except.ok (ValueSpec.validate spec arg, arg)
  | Port.nspace attrs ports =>
    match pyArgToDict arg with
    | Except.error e => Except.error e
    | Except.ok working =>
      match Port.validateBody env attrs ports working with
      | Except.error e => Except.error e
      | Except.ok r => Except.ok (r, arg)
termination_by (sizeOf p, 2)
decreasing_by
  all_goals simp_wf
  all_goals omega

/-- Phases of `PortNamespace.validate` after the copy (ports.py lines
428-449): namespace validator first; trivial success for an empty value
dictionary on a non-required namespace; otherwise the declared ports, then
the dynamic properties on whatever values remain. -/
def Port.validateBody (env : Env) (attrs : NSAttrs) (ports : List (String × Port))
    (working : Dict) : Except String (Bool × Option String) :=
  let r0 : Bool × Option String :=
    match attrs.validator with
    | some f => env.nsValidator f (Port.nspace attrs ports) working
    | Option.none => (true, Option.none)
  if r0.1 = false then Except.ok r0
  else if working.isEmpty && !attrs.required then Except.ok r0
  else
    match Port.validate_ports env ports working (true, Option.none) with
    | Except.error e => Except.error e
    | Except.ok (r1, remaining) =>
      if r1.1 = false then Except.ok r1
      else Except.ok (validate_dynamic_ports attrs.dynamic attrs.valid_type remaining)
termination_by (sizeOf ports, 1)
decreasing_by
  all_goals omega

/-- Model of `PortNamespace.validate_ports` (ports.py lines 451-467): for each
declared port in order, pop its value (or `UNSPECIFIED`) from the working
dictionary and validate it, returning on the first failure; the final
`(is_valid, message)` assignment (initially `(True, None)`) is returned when
the loop completes. -/
def Port.validate_ports (env : Env) (ports : List (String × Port)) (working : Dict)
    (acc : Bool × Option String) : Except String ((Bool × Option String) × Dict) :=
  match ports with
  | [] => Except.ok (acc, working)
  | (name, port) :: rest =>
    let pv := dictPop working name UNSPECIFIED
    match Port.validate env port pv.1 with
    | Except.error e => Except.error e
    | Except.ok (r, _) =>
      if r.1 = false then Except.ok (r, pv.2)
      else Port.validate_ports env rest pv.2 r
termination_by (sizeOf ports, 0)
decreasing_by
  all_goals simp_wf
  all_goals omega

end

theorem isUNSPECIFIED_eq_true_iff (v : PyValue) :
    isUNSPECIFIED v = true ↔ v = PyValue.tuple [] := by
  cases v with
  | tuple xs => cases xs <;> simp [isUNSPECIFIED]
  | none => simp [isUNSPECIFIED]
  | int n => simp [isUNSPECIFIED]
  | str s => simp [isUNSPECIFIED]
  | bool b => simp [isUNSPECIFIED]
  | dict d => simp [isUNSPECIFIED]

/-- Leaf port whose validator rejects everything, with `required = False`. -/
def c1spec : ValueSpec :=
  ValueSpec.mk "p" Option.none Option.none false (some (fun _ => VResult.vbool false))

/-- Claim C1 is false as stated: this leaf port is not required, yet
`validate(UNSPECIFIED)` fails, because the custom-validator block of
`ValueSpec.validate` (ports.py lines 100-106) sits outside the
`value is UNSPECIFIED` branch and is therefore still invoked. -/
theorem c1_counterexample :
    c1spec.required = false
    ∧ (ValueSpec.validate c1spec UNSPECIFIED).1 = false := by
  exact ⟨rfl, rfl⟩

/-- Claim C1, amended: for every leaf port without a custom validator,
`validate(UNSPECIFIED)` succeeds iff `required` is false, and no type check is
performed (the `valid_type` is arbitrary); when a validator is set it is still
invoked with `UNSPECIFIED` for non-required ports and its verdict decides the
result. -/
theorem c1_validate_unspecified :
    ∀ (nm : String) (vt : Option (List PyType)) (h : Option String) (req : Bool),
      ((ValueSpec.mk nm vt h req Option.none).validate UNSPECIFIED).1 = true ↔ req = false := by
  intro nm vt h req
  cases req <;> simp [ValueSpec.validate, UNSPECIFIED, isUNSPECIFIED, ValueSpec.runValidator]

/-- The sentinel is the empty tuple, a value a caller can in fact supply:
a required leaf port with no validator reports "required value missing" for
the supplied empty tuple, refuting the claim that no actual supplied value
(such as an empty tuple) is ever treated as the absent-value marker. -/
theorem c4_counterexample :
    ValueSpec.validate (ValueSpec.mk "x" Option.none Option.none true Option.none)
        (PyValue.tuple [])
      = (false, some "required value was not provided for x") := by
  exact rfl

/-- Claim C4, amended: a supplied value is treated as the absent-value marker
exactly when it is the empty tuple (which CPython interns, making it identical
to `UNSPECIFIED`); every other value, including `None`, is never treated as
absent — for a required, unconstrained, validator-free port, any non-empty-
tuple value passes while the empty tuple fails as missing. -/
theorem c4_sentinel_distinct :
    (∀ v, isUNSPECIFIED v = true ↔ v = PyValue.tuple [])
    ∧ (∀ (nm : String) (h : Option String) (v : PyValue), v ≠ PyValue.tuple [] →
        ((ValueSpec.mk nm Option.none h true Option.none).validate v).1 = true)
    ∧ (∀ (nm : String) (h : Option String),
        ((ValueSpec.mk nm Option.none h true Option.none).validate (PyValue.tuple [])).1 = false) := by
  refine ⟨isUNSPECIFIED_eq_true_iff, ?_, ?_⟩
  · intro nm h v hv
    have hu : isUNSPECIFIED v = false := by
      cases hiu : isUNSPECIFIED v
      · rfl
      · exact absurd ((isUNSPECIFIED_eq_true_iff v).mp hiu) hv
    simp [ValueSpec.validate, hu, ValueSpec.runValidator]
  · intro nm h
    rfl

theorem c4_sentinel_distinct_witness :
    PyValue.none ≠ PyValue.tuple []
    ∧ ((ValueSpec.mk "x" Option.none Option.none true Option.none).validate PyValue.none).1 = true := by
  exact ⟨by simp, c4_sentinel_distinct.2.1 "x" Option.none PyValue.none (by simp)⟩

/-- Claim C7: the constructed InputPort's `required` flag is always
`required_override(required, default)`; with a default supplied the override
is `false` whatever the caller passed; with no default the caller's flag is
kept and construction always succeeds; with a valid default the construction
succeeds as well (a required/default disagreement is logged, never fatal). -/
theorem c7_inputport_required :
    ∀ (nm : String) (vt : Option (List PyType)) (h : Option String) (df : PyValue)
      (req : Bool) (vld : Option (PyValue → VResult)),
      (∀ p, InputPort.init nm vt h df req vld = Except.ok p →
        Port.requiredVal p = InputPort.required_override req df)
      ∧ (isUNSPECIFIED df = false → InputPort.required_override req df = false)
      ∧ (isUNSPECIFIED df = true →
          InputPort.init nm vt h df req vld = Except.ok (Port.input (ValueSpec.mk nm vt h req vld) df))
      ∧ (isUNSPECIFIED df = false →
          ((ValueSpec.mk nm vt h false vld).validate df).1 = true →
          InputPort.init nm vt h df req vld
            = Except.ok (Port.input (ValueSpec.mk nm vt h false vld) df)) := by
  intro nm vt h df req vld
  refine ⟨?_, ?_, ?_, ?_⟩
  · intro p hp
    cases hdf : isUNSPECIFIED df with
    | true =>
      simp [InputPort.init, hdf, InputPort.required_override] at hp ⊢
      cases hp
      simp [Port.requiredVal]
    | false =>
      simp only [InputPort.init, hdf, Bool.false_eq_true, if_false] at hp
      rcases hval : ValueSpec.validate
          (ValueSpec.mk nm vt h (InputPort.required_override req df) vld) df with ⟨ok, msg⟩
      rw [hval] at hp
      cases ok
      · exact absurd hp (by simp)
      · simp at hp
        cases hp
        simp [Port.requiredVal]
  · intro hdf
    simp [InputPort.required_override, hdf]
  · intro hdf
    simp [InputPort.init, hdf, InputPort.required_override]
  · intro hdf hok
    have hro : InputPort.required_override req df = false := by
      simp [InputPort.required_override, hdf]
    simp only [InputPort.init, hdf, hro, Bool.false_eq_true, if_false]
    rcases hval : ValueSpec.validate (ValueSpec.mk nm vt h false vld) df with ⟨ok, msg⟩
    rw [hval] at hok
    simp at hok
    cases hok
    rfl

theorem c7_inputport_required_witness :
    isUNSPECIFIED (PyValue.int 5) = false
    ∧ ((ValueSpec.mk "a" (some [PyType.pyInt]) Option.none false Option.none).validate (PyValue.int 5)).1 = true
    ∧ InputPort.init "a" (some [PyType.pyInt]) Option.none (PyValue.int 5) true Option.none
        = Except.ok (Port.input (ValueSpec.mk "a" (some [PyType.pyInt]) Option.none false Option.none) (PyValue.int 5)) := by
  exact ⟨rfl, rfl,
    (c7_inputport_required "a" (some [PyType.pyInt]) Option.none (PyValue.int 5) true Option.none).2.2.2 rfl rfl⟩

/-- Absorbing namespace for the C2 counterexample: required, one child. -/
def c2self : Port :=
  Port.nspace (NSAttrs.mk "self" Option.none true Option.none Option.none UNSPECIFIED false)
    [("p", Port.output (ValueSpec.mk "p" Option.none Option.none true Option.none))]

/-- Absorbed namespace for the C2 counterexample: not required. -/
def c2other : Port :=
  Port.nspace (NSAttrs.mk "other" Option.none false Option.none Option.none UNSPECIFIED false) []

/-- Claim C2 is false as stated: `absorb` with a non-empty `exclude` and a
non-None `include` does raise, but at that moment `self` is not unchanged —
the mutable-property loop (ports.py lines 374-379) has already run, because
the mutual-exclusion check of `_filter_ports` only fires when the consuming
loop at line 387 first advances the generator.  Here `self.required` has
already been overwritten by `other`'s `False`. -/
theorem c2_counterexample :
    isError (Port.absorb c2self c2other ["x"] (some ["y"]) {}).2 = true
    ∧ Port.requiredVal (Port.absorb c2self c2other ["x"] (some ["y"]) {}).1 = false
    ∧ Port.requiredVal c2self = true := by
  exact ⟨rfl, rfl, rfl⟩

/-- Claim C2, amended: `absorb` with a non-empty `exclude` and a non-None
`include` always raises before any child port of `self` is modified, but the
mutable properties of `self` (default, dynamic, help, required, valid_type,
validator) have at that point already been overwritten from
`namespace_options` and the absorbed namespace. -/
theorem c2_absorb_exclusive :
    ∀ (sa : NSAttrs) (sports : List (String × Port)) (oa : NSAttrs)
      (oports : List (String × Port)) (exclude : List String)
      (incl : Option (List String)) (opts : NSOptions),
      exclude ≠ [] → incl ≠ Option.none →
      isError (Port.absorb (Port.nspace sa sports) (Port.nspace oa oports) exclude incl opts).2 = true
      ∧ (Port.absorb (Port.nspace sa sports) (Port.nspace oa oports) exclude incl opts).1
          = Port.nspace (absorb_apply_options sa oa opts) sports := by
  intro sa sports oa oports exclude incl opts hexc hincl
  have hsome : incl.isSome := by
    cases incl
    · exact absurd rfl hincl
    · rfl
  by_cases hextra : opts.extra = []
  · simp [Port.absorb, hextra, filter_ports, hexc, hsome, isError]
  · simp [Port.absorb, hextra, isError]

theorem c2_absorb_exclusive_witness :
    (["x"] : List String) ≠ []
    ∧ (some ["y"] : Option (List String)) ≠ Option.none
    ∧ isError (Port.absorb
        (Port.nspace (NSAttrs.mk "s2" Option.none true Option.none Option.none UNSPECIFIED false) [])
        (Port.nspace (NSAttrs.mk "o2" Option.none false Option.none Option.none UNSPECIFIED false) [])
        ["x"] (some ["y"]) {}).2 = true := by
  refine ⟨by simp, by simp, ?_⟩
  exact (c2_absorb_exclusive
    (NSAttrs.mk "s2" Option.none true Option.none Option.none UNSPECIFIED false) []
    (NSAttrs.mk "o2" Option.none false Option.none Option.none UNSPECIFIED false) []
    ["x"] (some ["y"]) {} (by simp) (by simp)).1

/-- Claim C10: after every successful `absorb`, the absorbing namespace's
`dynamic` flag equals "the applied valid_type is not None", where the applied
`valid_type` comes from `namespace_options` when present and from the absorbed
namespace otherwise.  The mutable properties are applied in the alphabetical
order of `dir()`, so the `valid_type` property setter (which rewrites
`dynamic`) runs after the `dynamic` assignment, and the later `validator`
assignment leaves `dynamic` untouched. -/
theorem c10_absorb_dynamic :
    ∀ (sa : NSAttrs) (sports : List (String × Port)) (oa : NSAttrs)
      (oports : List (String × Port)) (exclude : List String)
      (incl : Option (List String)) (opts : NSOptions) (res : Port) (names : List String),
      Port.absorb (Port.nspace sa sports) (Port.nspace oa oports) exclude incl opts
        = (res, Except.ok names) →
      Port.dynamicVal res = (opts.valid_type.getD oa.valid_type).isSome := by
  intro sa sports oa oports exclude incl opts res names habs
  by_cases hextra : opts.extra = []
  · rcases hf : filter_ports oports exclude incl with e | kept
    · simp [Port.absorb, hextra, hf] at habs
    · simp [Port.absorb, hextra, hf] at habs
      rw [← habs.1]
      simp [Port.dynamicVal, absorb_apply_options, NSAttrs.set_valid_type]
  · simp [Port.absorb, hextra] at habs

theorem c10_absorb_dynamic_witness :
    Port.absorb
        (Port.nspace (NSAttrs.mk "s3" Option.none true Option.none Option.none UNSPECIFIED false) [])
        (Port.nspace (NSAttrs.mk "o3" Option.none true Option.none (some [PyType.pyInt]) UNSPECIFIED false) [])
        [] Option.none {}
      = (Port.nspace (NSAttrs.mk "s3" Option.none true Option.none (some [PyType.pyInt]) UNSPECIFIED true) [],
         Except.ok [])
    ∧ Port.dynamicVal
        (Port.nspace (NSAttrs.mk "s3" Option.none true Option.none (some [PyType.pyInt]) UNSPECIFIED true) [])
      = (some [PyType.pyInt] : Option (List PyType)).isSome := by
  refine ⟨?_, ?_⟩
  · simp [Port.absorb, filter_ports, absorb_apply_options, NSAttrs.set_valid_type]
  · exact c10_absorb_dynamic
      (NSAttrs.mk "s3" Option.none true Option.none Option.none UNSPECIFIED false) []
      (NSAttrs.mk "o3" Option.none true Option.none (some [PyType.pyInt]) UNSPECIFIED false) []
      [] Option.none {} _ []
      (by simp [Port.absorb, filter_ports, absorb_apply_options, NSAttrs.set_valid_type])

/-- Schema for C3: a namespace with one sub-namespace `sub` declaring `x`. -/
def c3schema : Port :=
  Port.nspace (NSAttrs.mk "base" Option.none true Option.none Option.none UNSPECIFIED false)
    [("sub", Port.nspace (NSAttrs.mk "sub" Option.none true Option.none Option.none UNSPECIFIED false)
      [("x", Port.output (ValueSpec.mk "x" Option.none Option.none true Option.none))])]

/-- Values for C3: a nested mapping under `sub` with one declared and one
undeclared key, plus an undeclared top-level key. -/
def c3values : Dict :=
  [("sub", PyValue.dict [("x", PyValue.int 1), ("junk", PyValue.int 2)]),
   ("alien", PyValue.int 3)]

/-- Claim C3 names the documented/intended behaviour, but the code tests
whether the *value* is a `PortNamespace` instance (ports.py line 406), so for
plain data values it never recurses: the nested mapping under `sub` is kept
verbatim, `junk` included, while the intended contract (recursing via the
schema child's `project`, as the docstring and spec describe) would drop it.
Both top-level filtering results agree on dropping `alien`. -/
theorem c3_project_value_check :
    Port.project c3schema c3values
      = [("sub", PyValue.dict [("x", PyValue.int 1), ("junk", PyValue.int 2)])]
    ∧ Port.projectSpec c3schema c3values
      = [("sub", PyValue.dict [("x", PyValue.int 1)])] := by
  constructor
  · rfl
  · simp [Port.projectSpec, c3schema, c3values, projectSpecGo, Port.lookupChild, dictLookup]

/-- Claim C9: a namespace that is not required and whose namespace validator
is absent or passes (returning `(True, None)`) validates the empty value
mapping successfully, without any child port being consulted — the children
are arbitrary here, including required ones. -/
theorem c9_vacuous_optionality :
    ∀ (env : Env) (attrs : NSAttrs) (ports : List (String × Port)),
      attrs.required = false →
      (match attrs.validator with
       | Option.none => True
       | some f => env.nsValidator f (Port.nspace attrs ports) [] = (true, Option.none)) →
      Port.validate env (Port.nspace attrs ports) (PyValue.dict [])
        = Except.ok ((true, Option.none), PyValue.dict []) := by
  intro env attrs ports hreq hvld
  rcases hv : attrs.validator with _ | f
  · simp [Port.validate, Port.validateBody, pyArgToDict, hv, hreq]
  · rw [hv] at hvld
    simp [Port.validate, Port.validateBody, pyArgToDict, hv, hvld, hreq]

theorem c9_vacuous_optionality_witness :
    (NSAttrs.mk "w9" Option.none false Option.none Option.none UNSPECIFIED false).required = false
    ∧ Port.validate (Env.mk (fun _ _ _ => (true, Option.none)))
        (Port.nspace (NSAttrs.mk "w9" Option.none false Option.none Option.none UNSPECIFIED false)
          [("must", Port.output (ValueSpec.mk "must" Option.none Option.none true Option.none))])
        (PyValue.dict [])
      = Except.ok ((true, Option.none), PyValue.dict []) := by
  refine ⟨rfl, ?_⟩
  exact c9_vacuous_optionality (Env.mk (fun _ _ _ => (true, Option.none)))
    (NSAttrs.mk "w9" Option.none false Option.none Option.none UNSPECIFIED false)
    [("must", Port.output (ValueSpec.mk "must" Option.none Option.none true Option.none))]
    rfl trivial

/-- Claim C8: `PortNamespace.validate` never modifies the caller's value
mapping.  The method rebinds `port_values = dict(port_values)` (a private
shallow copy, with `None` as `{}`), and all popping in `validate_ports` acts
on that copy, so whenever the call returns, the caller's dictionary is handed
back exactly as supplied; moreover calling with `None` yields the same
verdict as calling with an empty dictionary. -/
theorem c8_validate_frame :
    ∀ (env : Env) (attrs : NSAttrs) (ports : List (String × Port)) (d : Dict),
      (∀ r, Port.validate env (Port.nspace attrs ports) (PyValue.dict d) = Except.ok r →
        r.2 = PyValue.dict d)
      ∧ Except.map Prod.fst (Port.validate env (Port.nspace attrs ports) PyValue.none)
          = Except.map Prod.fst (Port.validate env (Port.nspace attrs ports) (PyValue.dict [])) := by
  intro env attrs ports d
  constructor
  · intro r hr
    rw [Port.validate] at hr
    simp only [pyArgToDict] at hr
    rcases hb : Port.validateBody env attrs ports d with e | rb
    · rw [hb] at hr
      exact absurd hr (by simp)
    · rw [hb] at hr
      simp at hr
      rw [← hr]
  · rw [Port.validate, Port.validate]
    simp only [pyArgToDict]
    rcases hb : Port.validateBody env attrs ports [] with e | rb <;> simp [hb, Except.map]

theorem c8_validate_frame_witness :
    Port.validate (Env.mk (fun _ _ _ => (true, Option.none)))
        (Port.nspace (NSAttrs.mk "w8" Option.none true Option.none Option.none UNSPECIFIED false)
          [("a", Port.output (ValueSpec.mk "a" Option.none Option.none true Option.none))])
        (PyValue.dict [("a", PyValue.int 1)])
      = Except.ok ((true, Option.none), PyValue.dict [("a", PyValue.int 1)])
    ∧ ((true, (Option.none : Option String)), PyValue.dict [("a", PyValue.int 1)]).2
        = PyValue.dict [("a", PyValue.int 1)] := by
  have hcomp : Port.validate (Env.mk (fun _ _ _ => (true, Option.none)))
      (Port.nspace (NSAttrs.mk "w8" Option.none true Option.none Option.none UNSPECIFIED false)
        [("a", Port.output (ValueSpec.mk "a" Option.none Option.none true Option.none))])
      (PyValue.dict [("a", PyValue.int 1)])
      = Except.ok ((true, Option.none), PyValue.dict [("a", PyValue.int 1)]) := by
    simp [Port.validate, Port.validateBody, Port.validate_ports, pyArgToDict, dictPop,
      validate_dynamic_ports, ValueSpec.validate, isUNSPECIFIED, ValueSpec.runValidator,
      UNSPECIFIED]
  refine ⟨hcomp, ?_⟩
  exact (c8_validate_frame (Env.mk (fun _ _ _ => (true, Option.none)))
    (NSAttrs.mk "w8" Option.none true Option.none Option.none UNSPECIFIED false)
    [("a", Port.output (ValueSpec.mk "a" Option.none Option.none true Option.none))]
    [("a", PyValue.int 1)]).1 _ hcomp

/-- Discriminates string values (`isinstance(name, string_types)`). -/
def PyValue.isStr : PyValue → Bool
  | PyValue.str _ => true
  | _ => false

theorem string_ne_empty_of_data_ne_nil (s : String) (h : s.data ≠ []) : s ≠ "" := by
  intro he
  rw [he] at h
  exact h rfl

theorem splitDot_single (n : String) (hdot : ('.' : Char) ∉ n.data) : splitDot n = [n] := by
  simp [splitDot, splitDotChars_no_dot n.data hdot]

theorem joinDots_ne_empty (n : String) (rest : List String) (hd : n.data ≠ []) :
    joinDots (n :: rest) ≠ "" := by
  cases rest with
  | nil => exact string_ne_empty_of_data_ne_nil n hd
  | cons m rest2 =>
    intro he
    have hdata : (joinDots (n :: m :: rest2)).data = [] := by
      rw [he]
    have hJ : joinDots (n :: m :: rest2) = n ++ "." ++ joinDots (m :: rest2) := rfl
    rw [hJ] at hdata
    simp [String.data_append] at hdata

theorem except_bind_error {e a b : Type} (x : e) (f : a → Except e b) :
    (Except.error x >>= f) = Except.error x := rfl

theorem except_bind_ok {e a b : Type} (x : a) (f : a → Except e b) :
    (Except.ok x >>= f) = f x := rfl

theorem get_port_single (t : Port) (n : String) (hd : n.data ≠ [])
    (hdot : ('.' : Char) ∉ n.data) :
    Port.get_port t (PyValue.str n) = Port.get_port_go t [n] := by
  cases t with
  | nspace attrs ports =>
    have hne : n ≠ "" := string_ne_empty_of_data_ne_nil n hd
    simp [Port.get_port, hne, splitDot_single n hdot]
  | input spec df => simp [Port.get_port, Port.get_port_go]
  | output spec => simp [Port.get_port, Port.get_port_go]

theorem get_port_go_foldlM : ∀ (names : List String) (t : Port),
    (∀ n ∈ names, n.data ≠ [] ∧ ('.' : Char) ∉ n.data) → names ≠ [] →
    Port.get_port_go t names
      = names.foldlM (fun q n => Port.get_port q (PyValue.str n)) t := by
  intro names
  induction names with
  | nil =>
    intro t _ hne
    exact absurd rfl hne
  | cons n rest ih =>
    intro t h _
    rcases h n (by simp) with ⟨hd, hdot⟩
    have hsingle := fun t2 => get_port_single t2 n hd hdot
    cases rest with
    | nil =>
      simp [List.foldlM_cons, List.foldlM_nil, hsingle t]
    | cons m rest2 =>
      cases t with
      | input spec df =>
        simp [Port.get_port_go, Port.get_port, List.foldlM_cons, except_bind_error]
      | output spec =>
        simp [Port.get_port_go, Port.get_port, List.foldlM_cons, except_bind_error]
      | nspace attrs ports =>
        have hne : n ≠ "" := string_ne_empty_of_data_ne_nil n hd
        have ihc := fun t2 => ih t2 (fun x hx => h x (by simp [hx])) (by simp)
        rcases hlk : dictLookup ports n with _ | child
        · have h1 : Port.get_port (Port.nspace attrs ports) (PyValue.str n)
              = Except.error ("port " ++ n ++ " does not exist in port namespace " ++ attrs.name) := by
            rw [hsingle (Port.nspace attrs ports)]
            simp [Port.get_port_go, hlk, string_ne_empty_of_data_ne_nil n hd]
          simp [Port.get_port_go, hlk, List.foldlM_cons, h1, except_bind_error]
        · have h1 : Port.get_port (Port.nspace attrs ports) (PyValue.str n) = Except.ok child := by
            rw [hsingle (Port.nspace attrs ports)]
            simp [Port.get_port_go, hlk, string_ne_empty_of_data_ne_nil n hd]
          simp [Port.get_port_go, hlk, List.foldlM_cons, h1, ihc child, except_bind_ok]

/-- Claim C5: resolving a dotted path is exactly the sequence of single-level
lookups — `get_port("a.b.c")` returns the very node the chained lookups
return, and if any segment is missing (or an intermediate node is a leaf)
the whole call fails with that step's error, never with a partial result;
an empty or non-string name also raises. -/
theorem c5_get_port :
    (∀ (t : Port) (names : List String), names ≠ [] →
       (∀ n ∈ names, n.data ≠ [] ∧ ('.' : Char) ∉ n.data) →
       Port.get_port t (PyValue.str (joinDots names))
         = names.foldlM (fun q n => Port.get_port q (PyValue.str n)) t)
    ∧ (∀ t : Port, isError (Port.get_port t (PyValue.str "")) = true)
    ∧ (∀ (t : Port) (v : PyValue), PyValue.isStr v = false →
        isError (Port.get_port t v) = true) := by
  refine ⟨?_, ?_, ?_⟩
  · intro t names hne h
    cases names with
    | nil => exact absurd rfl hne
    | cons n rest =>
      rcases h n (by simp) with ⟨hd, _⟩
      cases t with
      | input spec df => simp [Port.get_port, List.foldlM_cons, except_bind_error]
      | output spec => simp [Port.get_port, List.foldlM_cons, except_bind_error]
      | nspace attrs ports =>
        have hs : joinDots (n :: rest) ≠ "" := joinDots_ne_empty n rest hd
        rw [show Port.get_port (Port.nspace attrs ports) (PyValue.str (joinDots (n :: rest)))
            = Port.get_port_go (Port.nspace attrs ports) (splitDot (joinDots (n :: rest))) by
          simp [Port.get_port, hs]]
        rw [splitDot_joinDots (n :: rest) hne h]
        exact get_port_go_foldlM (n :: rest) (Port.nspace attrs ports) h hne
  · intro t
    cases t <;> simp [Port.get_port, isError]
  · intro t v hv
    cases t <;> cases v <;> simp_all [Port.get_port, isError, PyValue.isStr]

/-- Tree with nested namespaces `a`, `a.b` and a leaf `a.b.c`. -/
def c5t : Port :=
  Port.nspace (NSAttrs.mk "root" Option.none true Option.none Option.none UNSPECIFIED false)
    [("a", Port.nspace (NSAttrs.mk "a" Option.none true Option.none Option.none UNSPECIFIED false)
      [("b", Port.nspace (NSAttrs.mk "b" Option.none true Option.none Option.none UNSPECIFIED false)
        [("c", Port.output (ValueSpec.mk "c" Option.none Option.none true Option.none))])])]

theorem c5_get_port_witness :
    (["a", "b", "c"] : List String) ≠ []
    ∧ Port.get_port c5t (PyValue.str (joinDots ["a", "b", "c"]))
        = (["a", "b", "c"]).foldlM (fun q n => Port.get_port q (PyValue.str n)) c5t := by
  refine ⟨by simp, ?_⟩
  exact c5_get_port.1 c5t ["a", "b", "c"] (by simp) (by decide)

theorem create_pn_shape : ∀ (names : List String) (attrs : NSAttrs)
    (ports : List (String × Port)) (args : NSArgs),
    ∃ ports2, (Port.create_pn (Port.nspace attrs ports) names args).1
      = Port.nspace attrs ports2 := by
  intro names attrs ports args
  cases names with
  | nil => exact ⟨ports, by simp [Port.create_pn]⟩
  | cons n rest =>
    by_cases hg : n :: rest = [""]
    · exact ⟨ports, by simp [Port.create_pn, hg]⟩
    · rcases hlk : dictLookup ports n with _ | child
      · by_cases hre : rest.isEmpty
        · exact ⟨dictSet ports n (PortNamespace.init n args),
            by simp [Port.create_pn, hg, hlk, hre]⟩
        · exact ⟨dictSet ports n (Port.create_pn (PortNamespace.init n {}) rest args).1,
            by simp [Port.create_pn, hg, hlk, hre]⟩
      · by_cases hns : child.isNamespace
        · by_cases hre : rest.isEmpty
          · exact ⟨ports, by simp [Port.create_pn, hg, hlk, hns, hre]⟩
          · exact ⟨dictSet ports n (Port.create_pn child rest args).1,
              by simp [Port.create_pn, hg, hlk, hns, hre]⟩
        · exact ⟨ports, by simp [Port.create_pn, hg, hlk, hns]⟩

theorem create_pn_idem : ∀ (names : List String) (t : Port) (args : NSArgs) (t2 node : Port),
    Port.create_pn t names args = (t2, Except.ok node) →
    Port.create_pn t2 names args = (t2, Except.ok node) := by
  intro names
  induction names with
  | nil =>
    intro t args t2 node h
    cases t <;> simp [Port.create_pn] at h
  | cons n rest ih =>
    intro t args t2 node h
    cases t with
    | input spec df => simp [Port.create_pn] at h
    | output spec => simp [Port.create_pn] at h
    | nspace attrs ports =>
      by_cases hg : n :: rest = [""]
      · simp [Port.create_pn, hg] at h
      · rcases hlk : dictLookup ports n with _ | child
        · by_cases hre : rest.isEmpty
          · have hcomp : Port.create_pn (Port.nspace attrs ports) (n :: rest) args
                = (Port.nspace attrs (dictSet ports n (PortNamespace.init n args)),
                   Except.ok (PortNamespace.init n args)) := by
              simp [Port.create_pn, hg, hlk, hre]
            rw [hcomp] at h
            rw [Prod.mk.injEq] at h
            obtain ⟨h1, h2⟩ := h
            have hnode : PortNamespace.init n args = node := by
              injection h2
            subst hnode
            rw [← h1]
            simp [Port.create_pn, hg, dictLookup_dictSet_self, PortNamespace.init,
              Port.isNamespace, hre]
          · rcases hrec : Port.create_pn (PortNamespace.init n {}) rest args with ⟨child2, res⟩
            have hcomp : Port.create_pn (Port.nspace attrs ports) (n :: rest) args
                = (Port.nspace attrs (dictSet ports n child2), res) := by
              simp [Port.create_pn, hg, hlk, hre, hrec]
            rw [hcomp] at h
            rw [Prod.mk.injEq] at h
            obtain ⟨h1, h2⟩ := h
            have hih := ih (PortNamespace.init n {}) args child2 node (by rw [hrec, h2])
            obtain ⟨cp2, hshape⟩ := create_pn_shape rest
              (NSAttrs.mk n Option.none true Option.none Option.none UNSPECIFIED false) [] args
            have hc2 : child2 = Port.nspace
                (NSAttrs.mk n Option.none true Option.none Option.none UNSPECIFIED false) cp2 := by
              have h3 := hshape
              rw [show Port.nspace
                  (NSAttrs.mk n Option.none true Option.none Option.none UNSPECIFIED false) []
                  = PortNamespace.init n {} from rfl, hrec] at h3
              simp at h3
              exact h3
            subst hc2
            rw [← h1]
            simp [Port.create_pn, hg, dictLookup_dictSet_self, Port.isNamespace, hre, hih,
              dictSet_dictSet]
        · by_cases hns : child.isNamespace
          · by_cases hre : rest.isEmpty
            · have hcomp : Port.create_pn (Port.nspace attrs ports) (n :: rest) args
                  = (Port.nspace attrs ports, Except.ok child) := by
                simp [Port.create_pn, hg, hlk, hns, hre]
              rw [hcomp] at h
              rw [Prod.mk.injEq] at h
              obtain ⟨h1, h2⟩ := h
              rw [← h1, ← h2]
              exact hcomp
            · rcases hrec : Port.create_pn child rest args with ⟨child2, res⟩
              have hcomp : Port.create_pn (Port.nspace attrs ports) (n :: rest) args
                  = (Port.nspace attrs (dictSet ports n child2), res) := by
                simp [Port.create_pn, hg, hlk, hns, hre, hrec]
              rw [hcomp] at h
              rw [Prod.mk.injEq] at h
              obtain ⟨h1, h2⟩ := h
              have hih := ih child args child2 node (by rw [hrec, h2])
              obtain ⟨ca, cp, hcc⟩ : ∃ ca cp, child = Port.nspace ca cp := by
                cases child with
                | nspace ca cp => exact ⟨ca, cp, rfl⟩
                | input s d => simp [Port.isNamespace] at hns
                | output s => simp [Port.isNamespace] at hns
              obtain ⟨cp2, hshape⟩ := create_pn_shape rest ca cp args
              have hc2 : child2 = Port.nspace ca cp2 := by
                have h3 := hshape
                rw [← hcc, hrec] at h3
                simp at h3
                exact h3
              subst hc2
              rw [← h1]
              simp [Port.create_pn, hg, dictLookup_dictSet_self, Port.isNamespace, hre, hih,
                dictSet_dictSet]
          · simp [Port.create_pn, hg, hlk, hns] at h

theorem create_pn_leaf_error : ∀ (names : List String) (t : Port) (args : NSArgs)
    (k : Nat) (leafp : Port),
    Port.findPath t (names.take (k+1)) = some leafp →
    leafp.isNamespace = false →
    isError (Port.create_pn t names args).2 = true := by
  intro names
  induction names with
  | nil =>
    intro t args k leafp hfind hleaf
    simp [Port.findPath] at hfind
    subst hfind
    cases t <;> simp [Port.create_pn, isError]
  | cons n rest ih =>
    intro t args k leafp hfind hleaf
    rw [List.take_succ_cons] at hfind
    cases t with
    | input spec df => simp [Port.findPath, Port.lookupChild] at hfind
    | output spec => simp [Port.findPath, Port.lookupChild] at hfind
    | nspace attrs ports =>
      by_cases hg : n :: rest = [""]
      · simp [Port.create_pn, hg, isError]
      · rw [Port.findPath] at hfind
        rcases hlk : Port.lookupChild (Port.nspace attrs ports) n with _ | child
        · rw [hlk] at hfind
          exact absurd hfind (by simp)
        · rw [hlk] at hfind
          have hlk2 : dictLookup ports n = some child := hlk
          cases hk : rest.take k with
          | nil =>
            rw [hk] at hfind
            simp [Port.findPath] at hfind
            subst hfind
            simp [Port.create_pn, hg, hlk2, hleaf, isError]
          | cons x xs =>
            rw [hk] at hfind
            cases child with
            | input spec2 df2 => simp [Port.findPath, Port.lookupChild] at hfind
            | output spec2 => simp [Port.findPath, Port.lookupChild] at hfind
            | nspace ca cp =>
              cases k with
              | zero => simp at hk
              | succ k2 =>
                have hrest_ne : rest ≠ [] := by
                  intro hr
                  rw [hr] at hk
                  simp at hk
                have hre : rest.isEmpty = false := by
                  simp [List.isEmpty_iff, hrest_ne]
                rw [← hk] at hfind
                have hihr := ih (Port.nspace ca cp) args k2 leafp hfind hleaf
                rcases hrec : Port.create_pn (Port.nspace ca cp) rest args with ⟨c2, r2⟩
                rw [hrec] at hihr
                simp [Port.create_pn, hg, hlk2, Port.isNamespace, hre, hrec, hihr]

/-- Claim C6: `create_port_namespace` is idempotent — a successful call
followed by an identical call returns the same terminal node and leaves the
whole tree unchanged (constructor arguments being ignored for existing
nodes); and whenever some prefix of the path already resolves to a
non-namespace leaf port, the call raises. -/
theorem c6_create_port_namespace :
    (∀ (t : Port) (s : String) (args : NSArgs) (t2 node : Port),
       Port.create_port_namespace t (PyValue.str s) args = (t2, Except.ok node) →
       Port.create_port_namespace t2 (PyValue.str s) args = (t2, Except.ok node))
    ∧ (∀ (t : Port) (s : String) (args : NSArgs) (k : Nat) (leafp : Port),
       Port.findPath t ((splitDot s).take (k+1)) = some leafp →
       leafp.isNamespace = false →
       isError (Port.create_port_namespace t (PyValue.str s) args).2 = true) := by
  constructor
  · intro t s args t2 node h
    cases t with
    | input spec df => simp [Port.create_port_namespace] at h
    | output spec => simp [Port.create_port_namespace] at h
    | nspace attrs ports =>
      by_cases hs : s = ""
      · simp [Port.create_port_namespace, hs] at h
      · simp only [Port.create_port_namespace, hs, if_false] at h
        have h2 := create_pn_idem (splitDot s) (Port.nspace attrs ports) args t2 node h
        obtain ⟨ports2, hshape⟩ := create_pn_shape (splitDot s) attrs ports args
        have ht2 : t2 = Port.nspace attrs ports2 := by
          rw [h] at hshape
          simpa using hshape
        subst ht2
        simp only [Port.create_port_namespace, hs, if_false]
        exact h2
  · intro t s args k leafp hfind hleaf
    cases t with
    | input spec df => simp [Port.create_port_namespace, isError]
    | output spec => simp [Port.create_port_namespace, isError]
    | nspace attrs ports =>
      by_cases hs : s = ""
      · simp [Port.create_port_namespace, hs, isError]
      · simp only [Port.create_port_namespace, hs, if_false]
        exact create_pn_leaf_error (splitDot s) (Port.nspace attrs ports) args k leafp hfind hleaf

/-- Empty root namespace for the C6 witness. -/
def c6tree : Port :=
  Port.nspace (NSAttrs.mk "root6" Option.none true Option.none Option.none UNSPECIFIED false) []

/-- Terminal node created by `create_port_namespace("x.y")` on `c6tree`. -/
def c6node : Port := PortNamespace.init "y" {}

/-- Tree state after `create_port_namespace("x.y")` on `c6tree`. -/
def c6tree2 : Port :=
  Port.nspace (NSAttrs.mk "root6" Option.none true Option.none Option.none UNSPECIFIED false)
    [("x", Port.nspace (NSAttrs.mk "x" Option.none true Option.none Option.none UNSPECIFIED false)
      [("y", c6node)])]

theorem c6_create_port_namespace_witness :
    Port.create_port_namespace c6tree (PyValue.str "x.y") {} = (c6tree2, Except.ok c6node)
    ∧ Port.create_port_namespace c6tree2 (PyValue.str "x.y") {} = (c6tree2, Except.ok c6node) := by
  have hcomp : Port.create_port_namespace c6tree (PyValue.str "x.y") {}
      = (c6tree2, Except.ok c6node) := by
    simp [Port.create_port_namespace, Port.create_pn, splitDot, splitDotChars, dictLookup,
      dictSet, PortNamespace.init, Port.isNamespace, c6tree, c6tree2, c6node]
  exact ⟨hcomp, c6_create_port_namespace.1 c6tree "x.y" {} c6tree2 c6node hcomp⟩
